import Mathlib

/-!
Verification of the rgb-promini firmware (src/rgb-promini/rgb-promini.ino):
a three-channel PWM LED driver controlled by three buttons, with a
debounced tap/hold state machine per channel, a coordinated three-button
save gesture, and an EEPROM-backed persistence store.

The embedding below mirrors the Arduino sketch shallowly: one `Channel`
record per color holds the global per-channel arrays (`Values`,
`lastValues`, `curButtonStates`, `lastButtonStates`, `buttonsHeld`,
`lastDebounceTimes`); `stepChannel` is the per-channel body of `loop`;
`tick` is one full pass of `loop` including the write-on-change apply
step and the save gesture; `SaveState`/`LoadState` model the EEPROM
persistence. Button levels are `Bool` (`true` = HIGH = pressed,
`false` = LOW = released). Time is the millisecond counter as `Nat`
with truncated subtraction, matching unsigned arithmetic on a
non-wrapping run. Hardware effects (analogWrite, delay) are recorded as
an event list.
-/

namespace RgbPro

/-- HOLD_TIME_CLEAR: ms a single button must be held to clear its channel. -/
def HOLD_TIME_CLEAR : Nat := 1500

/-- HOLD_TIME_SAVE: ms all three buttons must be held to trigger a save. -/
def HOLD_TIME_SAVE : Nat := 1000

/-- BLINK_DELAY: ms between steps of the save acknowledgment flash. -/
def BLINK_DELAY : Nat := 100

/-- PWM_INCREMENT: amount added to a channel value on a tap. -/
def PWM_INCREMENT : Int := 16

/-- debounceDelay: debounce window in milliseconds. -/
def debounceDelay : Nat := 30

/-- EEPROM_DATA_OFFSET: base offset of the saved bytes in the EEPROM. -/
def EEPROM_DATA_OFFSET : Nat := 0

/-- Per-channel slice of the sketch's global state arrays (index i of
`Values`, `lastValues`, `curButtonStates`, `lastButtonStates`,
`buttonsHeld`, `lastDebounceTimes`). -/
structure Channel where
  value : Int
  lastValue : Int
  curButton : Bool
  lastButton : Bool
  held : Bool
  lastDebounce : Nat
deriving Repr, DecidableEq

/-- The tap update applied on a debounced release with the held flag
clear: `if (Values[i] == 255) Values[i] = 0; else Values[i] += PWM_INCREMENT;
Values[i] = min(Values[i], 255);`. -/
def tapUpdate (v : Int) : Int :=
  min (if v = 255 then 0 else v + PWM_INCREMENT) 255

/-- One execution of the per-channel body of `loop` for one channel:
debounce-window reset, debounced commit with tap increment, hold-clear
rule, and the `lastButtonStates[i] = reading` update. -/
def stepChannel (ts : Nat) (reading : Bool) (c : Channel) : Channel :=
  let ld := if reading ≠ c.lastButton then ts else c.lastDebounce
  let (cur, v1, h1) :=
    if ts - ld > debounceDelay ∧ reading ≠ c.curButton then
      (reading,
       if reading = false ∧ c.held = false then tapUpdate c.value else c.value,
       false)
    else (c.curButton, c.value, c.held)
  let (v2, h2) :=
    if cur = true ∧ ts - ld > HOLD_TIME_CLEAR then ((0 : Int), true)
    else (v1, h1)
  { value := v2, lastValue := c.lastValue, curButton := cur,
    lastButton := reading, held := h2, lastDebounce := ld }

/-- The full global state: the three channels R, G, B. -/
structure State where
  ch0 : Channel
  ch1 : Channel
  ch2 : Channel
deriving Repr, DecidableEq

/-- Observable hardware effects of one tick: `analogWrite(OUTPUTS[chan], v)`
and `delay(ms)`. -/
inductive Ev where
  | write (chan : Nat) (v : Int)
  | delay (ms : Nat)
deriving Repr, DecidableEq

/-- The write-on-change apply step for one channel:
`if (Values[i] != lastValues[i]) { analogWrite(OUTPUTS[i], Values[i]);
lastValues[i] = Values[i]; }`. -/
def applyOne (i : Nat) (c : Channel) : Channel × List Ev :=
  if c.value ≠ c.lastValue then ({ c with lastValue := c.value }, [Ev.write i c.value])
  else (c, [])

/-- The EEPROM: a byte at every address. -/
def Eeprom : Type := Nat → Nat

/-- `EEPROM.write(addr, v)`: the int value is narrowed to a byte. -/
def eepromWrite (e : Eeprom) (addr : Nat) (v : Int) : Eeprom :=
  fun a => if a = addr then (v % 256).toNat else e a

/-- `EEPROM.read(addr)`: returns a byte. -/
def eepromRead (e : Eeprom) (addr : Nat) : Nat := e addr % 256

/-- `SaveState()`: write `Values[0..2]` to offsets 0, 1, 2, in that order. -/
def SaveState (s : State) (e : Eeprom) : Eeprom :=
  eepromWrite (eepromWrite (eepromWrite e (0 + EEPROM_DATA_OFFSET) s.ch0.value)
    (1 + EEPROM_DATA_OFFSET) s.ch1.value) (2 + EEPROM_DATA_OFFSET) s.ch2.value

/-- One iteration of `LoadState()`'s loop body:
`Values[i] = lastValues[i] = EEPROM.read(i + EEPROM_DATA_OFFSET);`. -/
def loadChannel (e : Eeprom) (i : Nat) (c : Channel) : Channel :=
  { c with value := (eepromRead e (i + EEPROM_DATA_OFFSET) : Int),
           lastValue := (eepromRead e (i + EEPROM_DATA_OFFSET) : Int) }

/-- `LoadState()`: load all three channel values from the EEPROM. -/
def LoadState (e : Eeprom) (s : State) : State :=
  { ch0 := loadChannel e 0 s.ch0, ch1 := loadChannel e 1 s.ch1,
    ch2 := loadChannel e 2 s.ch2 }

/-- The save-gesture trigger: all three stable button states HIGH and each
channel's time since its last debounce reset above HOLD_TIME_SAVE. -/
def saveCond (ts : Nat) (s : State) : Bool :=
  s.ch0.curButton && s.ch1.curButton && s.ch2.curButton &&
  decide (ts - s.ch0.lastDebounce > HOLD_TIME_SAVE) &&
  decide (ts - s.ch1.lastDebounce > HOLD_TIME_SAVE) &&
  decide (ts - s.ch2.lastDebounce > HOLD_TIME_SAVE)

/-- The save acknowledgment flash: all outputs to 0, delay, back to the
current values, delay, to 0, delay, back to the current values. -/
def blinkEvents (s : State) : List Ev :=
  [Ev.write 0 0, Ev.write 1 0, Ev.write 2 0, Ev.delay BLINK_DELAY,
   Ev.write 0 s.ch0.value, Ev.write 1 s.ch1.value, Ev.write 2 s.ch2.value,
   Ev.delay BLINK_DELAY,
   Ev.write 0 0, Ev.write 1 0, Ev.write 2 0, Ev.delay BLINK_DELAY,
   Ev.write 0 s.ch0.value, Ev.write 1 s.ch1.value, Ev.write 2 s.ch2.value]

/-- One full iteration of `loop`: run the three channel state machines on
the sampled readings, apply changed values to the outputs
(write-on-change), then evaluate the save gesture: flash, set all held
flags, and `SaveState()`. Returns the new state, the new EEPROM contents
and the emitted hardware events. -/
def tick (ts : Nat) (r : Bool × Bool × Bool) (s : State) (e : Eeprom) :
    State × Eeprom × List Ev :=
  let s1 : State := ⟨stepChannel ts r.1 s.ch0, stepChannel ts r.2.1 s.ch1,
                     stepChannel ts r.2.2 s.ch2⟩
  let (d0, w0) := applyOne 0 s1.ch0
  let (d1, w1) := applyOne 1 s1.ch1
  let (d2, w2) := applyOne 2 s1.ch2
  let s2 : State := ⟨d0, d1, d2⟩
  let applyEvs := w0 ++ w1 ++ w2
  if saveCond ts s2 then
    (⟨{ d0 with held := true }, { d1 with held := true }, { d2 with held := true }⟩,
     SaveState s2 e, applyEvs ++ blinkEvents s2)
  else (s2, e, applyEvs)

/-- Run one channel's state machine over a list of (timestamp, raw reading)
samples, one `loop` iteration per sample. -/
def runChannel (samples : List (Nat × Bool)) (c : Channel) : Channel :=
  samples.foldl (fun acc p => stepChannel p.1 p.2 acc) c

/-- Run several full `loop` iterations, threading state and EEPROM. -/
def runTicks (inputs : List (Nat × (Bool × Bool × Bool))) (s : State) (e : Eeprom) :
    State × Eeprom :=
  inputs.foldl (fun acc p => let r := tick p.1 p.2 acc.1 acc.2; (r.1, r.2.1)) (s, e)

/-- Channel i of the state. -/
def State.ch (s : State) : Fin 3 → Channel
  | 0 => s.ch0
  | 1 => s.ch1
  | 2 => s.ch2

/-- Channel i's component of a reading triple. -/
def rsel (r : Bool × Bool × Bool) : Fin 3 → Bool
  | 0 => r.1
  | 1 => r.2.1
  | 2 => r.2.2

/-- A reading triple driving channel i with level b and the others LOW. -/
def soloInput : Fin 3 → Bool → Bool × Bool × Bool
  | 0, b => (b, false, false)
  | 1, b => (false, b, false)
  | 2, b => (false, false, b)

/-- A channel's state after its `loop` body and the apply step of the same
iteration: the apply step leaves `lastValues[i] = Values[i]`. -/
def postChannel (ts : Nat) (r : Bool) (c : Channel) : Channel :=
  { stepChannel ts r c with lastValue := (stepChannel ts r c).value }

/-- The three channels after the `loop` bodies and the apply step. -/
def postState (ts : Nat) (r : Bool × Bool × Bool) (s : State) : State :=
  ⟨postChannel ts r.1 s.ch0, postChannel ts r.2.1 s.ch1, postChannel ts r.2.2 s.ch2⟩

/-- Events emitted by the apply step, given the three channels as they
stand right after their `loop` bodies. -/
def applyEvs (s1 : State) : List Ev :=
  (applyOne 0 s1.ch0).2 ++ (applyOne 1 s1.ch1).2 ++ (applyOne 2 s1.ch2).2

/-! ### Helper lemmas about single `loop` iterations -/

/-- The apply step for one channel ends with `lastValues[i] = Values[i]`. -/
theorem applyOne_fst (i : Nat) (c : Channel) :
    (applyOne i c).1 = { c with lastValue := c.value } := by
  obtain ⟨v, lv, cb, lb, h, ld⟩ := c
  unfold applyOne
  split_ifs with hv
  · rfl
  · simp only at hv
    push_neg at hv
    subst hv
    rfl

/-- The channel body never changes `lastValues[i]`. -/
theorem stepChannel_lastValue (ts : Nat) (r : Bool) (c : Channel) :
    (stepChannel ts r c).lastValue = c.lastValue := by
  unfold stepChannel
  split_ifs <;> rfl

/-- One full `loop` iteration, decomposed: channel bodies, then the apply
step setting `lastValues` to `Values`, then (when the save trigger holds)
the flash, the held flags and the EEPROM write. -/
theorem tick_eq (ts : Nat) (r : Bool × Bool × Bool) (s : State) (e : Eeprom) :
    tick ts r s e =
      if saveCond ts (postState ts r s) then
        (⟨{ (postState ts r s).ch0 with held := true },
          { (postState ts r s).ch1 with held := true },
          { (postState ts r s).ch2 with held := true }⟩,
         SaveState (postState ts r s) e,
         applyEvs ⟨stepChannel ts r.1 s.ch0, stepChannel ts r.2.1 s.ch1,
                   stepChannel ts r.2.2 s.ch2⟩ ++ blinkEvents (postState ts r s))
      else (postState ts r s, e,
            applyEvs ⟨stepChannel ts r.1 s.ch0, stepChannel ts r.2.1 s.ch1,
                      stepChannel ts r.2.2 s.ch2⟩) := by
  unfold tick applyEvs postState postChannel
  rw [show ∀ c, applyOne 0 c = ((applyOne 0 c).1, (applyOne 0 c).2) from fun _ => rfl]
  simp only [applyOne_fst]

/-- A settled released channel reading LOW is a fixed point of the body. -/
theorem stepChannel_released_fixed (ts : Nat) (c : Channel)
    (hc : c.curButton = false) (hl : c.lastButton = false) :
    stepChannel ts false c = c := by
  obtain ⟨v, lv, cb, lb, h, ld⟩ := c
  simp only at hc hl
  subst hc hl
  simp [stepChannel]

/-- Press arriving at a settled released channel: only the debounce window
restarts and the raw level is recorded. -/
theorem stepChannel_press_start (t1 : Nat) (c : Channel)
    (hc : c.curButton = false) (hl : c.lastButton = false) :
    stepChannel t1 true c = { c with lastButton := true, lastDebounce := t1 } := by
  obtain ⟨v, lv, cb, lb, h, ld⟩ := c
  simp only at hc hl
  subst hc hl
  simp [stepChannel]

/-- Debounced commit of a press: the stable state becomes HIGH, no
increment fires, and the held flag is cleared; the hold-clear rule stays
quiet while the press is younger than HOLD_TIME_CLEAR. -/
theorem stepChannel_press_commit (t2 : Nat) (c : Channel)
    (hc : c.curButton = false) (hl : c.lastButton = true)
    (hdb : t2 - c.lastDebounce > debounceDelay)
    (hshort : ¬ t2 - c.lastDebounce > HOLD_TIME_CLEAR) :
    stepChannel t2 true c = { c with curButton := true, held := false } := by
  obtain ⟨v, lv, cb, lb, h, ld⟩ := c
  simp only at hc hl hdb hshort
  subst hc hl
  simp [stepChannel, hdb, hshort]

/-- Release arriving at a settled pressed channel: only the debounce window
restarts and the raw level is recorded. -/
theorem stepChannel_release_start (t3 : Nat) (c : Channel)
    (hc : c.curButton = true) (hl : c.lastButton = true) :
    stepChannel t3 false c = { c with lastButton := false, lastDebounce := t3 } := by
  obtain ⟨v, lv, cb, lb, h, ld⟩ := c
  simp only at hc hl
  subst hc hl
  simp [stepChannel]

/-- Debounced commit of a release: the stable state becomes LOW, the tap
update fires exactly when the held flag was clear, and the held flag is
cleared. -/
theorem stepChannel_release_commit (t4 : Nat) (c : Channel)
    (hc : c.curButton = true) (hl : c.lastButton = false)
    (hdb : t4 - c.lastDebounce > debounceDelay) :
    stepChannel t4 false c =
      { c with curButton := false, held := false,
               value := if c.held = false then tapUpdate c.value else c.value } := by
  obtain ⟨v, lv, cb, lb, h, ld⟩ := c
  simp only at hc hl hdb
  subst hc hl
  cases h <;> simp [stepChannel, hdb]

/-- A settled pressed channel reading HIGH: no commit happens; only the
hold-clear rule may fire. -/
theorem stepChannel_pressed_held (ts : Nat) (c : Channel)
    (hc : c.curButton = true) (hl : c.lastButton = true) :
    stepChannel ts true c =
      if ts - c.lastDebounce > HOLD_TIME_CLEAR then { c with value := 0, held := true }
      else c := by
  obtain ⟨v, lv, cb, lb, h, ld⟩ := c
  simp only at hc hl
  subst hc hl
  by_cases hh : ts - ld > HOLD_TIME_CLEAR <;> simp [stepChannel, hh]

/-- When the reading agrees with the stable state, no commit fires and the
stable state is unchanged. -/
theorem stepChannel_curButton_of_eq (ts : Nat) (r : Bool) (c : Channel)
    (h : c.curButton = r) : (stepChannel ts r c).curButton = r := by
  simp [stepChannel, h]

/-- When the reading agrees with the last observed raw level, the debounce
window is not restarted. -/
theorem stepChannel_lastDebounce_of_eq (ts : Nat) (r : Bool) (c : Channel)
    (h : c.lastButton = r) : (stepChannel ts r c).lastDebounce = c.lastDebounce := by
  simp [stepChannel, h]

/-- The save trigger is false whenever channel 0's stable state is LOW. -/
theorem saveCond_false_ch0 (ts : Nat) (s : State) (h : s.ch0.curButton = false) :
    saveCond ts s = false := by
  simp [saveCond, h]

/-- The save trigger is false whenever channel 1's stable state is LOW. -/
theorem saveCond_false_ch1 (ts : Nat) (s : State) (h : s.ch1.curButton = false) :
    saveCond ts s = false := by
  simp [saveCond, h]

/-- The save trigger is false whenever channel 2's stable state is LOW. -/
theorem saveCond_false_ch2 (ts : Nat) (s : State) (h : s.ch2.curButton = false) :
    saveCond ts s = false := by
  simp [saveCond, h]

/-- When the save trigger fails, one `loop` iteration leaves the EEPROM
alone and just steps the channels and applies changed values. -/
theorem runTicks_cons_nosave (ts : Nat) (r : Bool × Bool × Bool)
    (rest : List (Nat × (Bool × Bool × Bool))) (s : State) (e : Eeprom)
    (h : saveCond ts (postState ts r s) = false) :
    runTicks ((ts, r) :: rest) s e = runTicks rest (postState ts r s) e := by
  simp only [runTicks, List.foldl]
  rw [tick_eq]
  simp [h]

/-- A run with no iterations changes nothing. -/
theorem runTicks_nil (s : State) (e : Eeprom) : runTicks [] s e = (s, e) := rfl

/-- The tap update stays within the PWM duty range. -/
theorem tapUpdate_bounds (v : Int) (h0 : 0 ≤ v) :
    0 ≤ tapUpdate v ∧ tapUpdate v ≤ 255 := by
  unfold tapUpdate PWM_INCREMENT
  rw [min_def]
  split_ifs <;> constructor <;> omega

/-- In one channel body, the value is either untouched, tap-updated, or
zeroed. -/
theorem stepChannel_value_cases (ts : Nat) (r : Bool) (c : Channel) :
    (stepChannel ts r c).value = c.value ∨
    (stepChannel ts r c).value = tapUpdate c.value ∨
    (stepChannel ts r c).value = 0 := by
  unfold stepChannel
  split_ifs <;> simp_all <;> split_ifs <;> simp_all

/-- The value a channel carries out of one full `loop` iteration is the
value its own body computed; the apply step and the save gesture do not
change `Values`. -/
theorem tick_value (ts : Nat) (r : Bool × Bool × Bool) (s : State) (e : Eeprom)
    (j : Fin 3) :
    ((tick ts r s e).1.ch j).value = (stepChannel ts (rsel r j) (s.ch j)).value := by
  rw [tick_eq]
  split_ifs <;> fin_cases j <;> rfl

/-- The channel body records the sampled raw level as the last observed
raw level. -/
theorem stepChannel_lastButton (ts : Nat) (r : Bool) (c : Channel) :
    (stepChannel ts r c).lastButton = r := by
  unfold stepChannel
  split_ifs <;> rfl

/-- The debounce timestamp after one channel body: restarted on a raw
change, otherwise kept. -/
theorem stepChannel_lastDebounce_eq (ts : Nat) (r : Bool) (c : Channel) :
    (stepChannel ts r c).lastDebounce =
      if r ≠ c.lastButton then ts else c.lastDebounce := by
  unfold stepChannel
  split_ifs <;> simp_all

/-- The stable state after one channel body: the reading when the commit
condition holds, otherwise unchanged. -/
theorem stepChannel_curButton_eq (ts : Nat) (r : Bool) (c : Channel) :
    (stepChannel ts r c).curButton =
      if ts - (if r ≠ c.lastButton then ts else c.lastDebounce) > debounceDelay
          ∧ r ≠ c.curButton
      then r else c.curButton := by
  unfold stepChannel
  split_ifs <;> simp_all <;> split_ifs <;> simp_all

/-- Unfolding one sample of a channel run. -/
theorem runChannel_cons (p : Nat × Bool) (rest : List (Nat × Bool)) (c : Channel) :
    runChannel (p :: rest) c = runChannel rest (stepChannel p.1 p.2 c) := rfl

/-- A deviating sample inside a window shorter than the debounce delay
cannot commit: the stable state is kept and the debounce timestamp stays
at or after the window start. -/
theorem stepChannel_flicker_step (ts : Nat) (r : Bool) (c : Channel) (b : Bool)
    (t0 : Nat) (hc : c.curButton = b)
    (hinv : c.lastButton ≠ b → t0 ≤ c.lastDebounce)
    (hr : r ≠ b) (ht : t0 ≤ ts) (ht' : ts < t0 + debounceDelay) :
    (stepChannel ts r c).curButton = b ∧ t0 ≤ (stepChannel ts r c).lastDebounce := by
  have hld : t0 ≤ (if r ≠ c.lastButton then ts else c.lastDebounce) := by
    by_cases hlb : r = c.lastButton
    · rw [if_neg (by simp [hlb])]
      exact hinv (by rw [← hlb]; exact hr)
    · rw [if_pos hlb]
      exact ht
  constructor
  · rw [stepChannel_curButton_eq]
    rw [if_neg]
    · exact hc
    · rintro ⟨hgt, -⟩
      omega
  · rw [stepChannel_lastDebounce_eq]
    exact hld

/-! ### Concrete sample data used by witnesses and counterexamples -/

/-- A settled released channel showing the given brightness. -/
def idleChannel (v : Int) : Channel :=
  { value := v, lastValue := v, curButton := false, lastButton := false,
    held := false, lastDebounce := 0 }

/-- A settled pressed channel (debounce window started at time 0) showing
the given brightness. -/
def pressedChannel (v : Int) : Channel :=
  { value := v, lastValue := v, curButton := true, lastButton := true,
    held := false, lastDebounce := 0 }

/-- An all-zero EEPROM image. -/
def blankEeprom : Eeprom := fun _ => 0

/-! ### Claim theorems -/


/-- C1 counterexample: a debounced press and release of channel 1's button
within 120 ms, outside a save gesture and with the held flag clear,
starting from brightness 250, ends at brightness 255: the change is +5,
not exactly +16, and no wrap of 255 to 0 happened. -/
theorem tap_increment_not_always_sixteen :
    ((runTicks [(50, (false, true, false)), (90, (false, true, false)),
                (130, (false, false, false)), (170, (false, false, false))]
        ⟨idleChannel 7, idleChannel 250, idleChannel 9⟩ blankEeprom).1.ch1).value
      = 255 ∧
    ¬((255 : Int) = 250 + 16 ∨ ((250 : Int) = 255 ∧ (255 : Int) = 0)) := by
  constructor
  · rfl
  · decide

/-- C1 (amended): for every channel i and every starting brightness, a
debounced press followed by a debounced release of channel i's button
within less than HOLD_TIME_CLEAR (1500 ms), outside a save gesture and
with the held flag clear, sets channel i's brightness b to `tapUpdate b`
(0 when b = 255, otherwise min (b + 16) 255) and leaves the brightness of
the other two channels unchanged. -/
theorem tap_updates_one_channel (i : Fin 3) (s : State) (e : Eeprom)
    (t1 t2 t3 t4 : Nat)
    (hcur : ∀ j : Fin 3, (s.ch j).curButton = false)
    (hlast : ∀ j : Fin 3, (s.ch j).lastButton = false)
    (hheld : (s.ch i).held = false)
    (h21 : t2 - t1 > debounceDelay)
    (h23 : t2 ≤ t3) (h31 : t3 - t1 < HOLD_TIME_CLEAR)
    (h43 : t4 - t3 > debounceDelay) :
    ((runTicks [(t1, soloInput i true), (t2, soloInput i true),
                (t3, soloInput i false), (t4, soloInput i false)] s e).1.ch i).value
      = tapUpdate ((s.ch i).value) ∧
    ∀ j : Fin 3, j ≠ i →
      ((runTicks [(t1, soloInput i true), (t2, soloInput i true),
                  (t3, soloInput i false), (t4, soloInput i false)] s e).1.ch j).value
        = (s.ch j).value := by
  obtain ⟨c0, c1, c2⟩ := s
  obtain ⟨v0, lv0, cb0, lb0, hd0, ld0⟩ := c0
  obtain ⟨v1, lv1, cb1, lb1, hd1, ld1⟩ := c1
  obtain ⟨v2, lv2, cb2, lb2, hd2, ld2⟩ := c2
  fin_cases i
  · have e0 : cb0 = false := hcur 0
    have e1 : cb1 = false := hcur 1
    have e2 : cb2 = false := hcur 2
    have f0 : lb0 = false := hlast 0
    have f1 : lb1 = false := hlast 1
    have f2 : lb2 = false := hlast 2
    have g0 : hd0 = false := hheld
    subst e0 e1 e2 f0 f1 f2 g0
    simp only [soloInput]
    have A1 : postState t1 (true, false, false) ⟨⟨v0, lv0, false, false, false, ld0⟩, ⟨v1, lv1, false, false, hd1, ld1⟩, ⟨v2, lv2, false, false, hd2, ld2⟩⟩ = ⟨⟨v0, v0, false, true, false, t1⟩, ⟨v1, v1, false, false, hd1, ld1⟩, ⟨v2, v2, false, false, hd2, ld2⟩⟩ := by
      simp only [postState, postChannel]
      rw [stepChannel_press_start t1 ⟨v0, lv0, false, false, false, ld0⟩ rfl rfl,
          stepChannel_released_fixed t1 ⟨v1, lv1, false, false, hd1, ld1⟩ rfl rfl,
          stepChannel_released_fixed t1 ⟨v2, lv2, false, false, hd2, ld2⟩ rfl rfl]
    have A2 : postState t2 (true, false, false) ⟨⟨v0, v0, false, true, false, t1⟩, ⟨v1, v1, false, false, hd1, ld1⟩, ⟨v2, v2, false, false, hd2, ld2⟩⟩ = ⟨⟨v0, v0, true, true, false, t1⟩, ⟨v1, v1, false, false, hd1, ld1⟩, ⟨v2, v2, false, false, hd2, ld2⟩⟩ := by
      simp only [postState, postChannel]
      rw [stepChannel_press_commit t2 ⟨v0, v0, false, true, false, t1⟩ rfl rfl h21
            (by show ¬ t2 - t1 > HOLD_TIME_CLEAR; omega),
          stepChannel_released_fixed t2 ⟨v1, v1, false, false, hd1, ld1⟩ rfl rfl,
          stepChannel_released_fixed t2 ⟨v2, v2, false, false, hd2, ld2⟩ rfl rfl]
    have A3 : postState t3 (false, false, false) ⟨⟨v0, v0, true, true, false, t1⟩, ⟨v1, v1, false, false, hd1, ld1⟩, ⟨v2, v2, false, false, hd2, ld2⟩⟩ = ⟨⟨v0, v0, true, false, false, t3⟩, ⟨v1, v1, false, false, hd1, ld1⟩, ⟨v2, v2, false, false, hd2, ld2⟩⟩ := by
      simp only [postState, postChannel]
      rw [stepChannel_release_start t3 ⟨v0, v0, true, true, false, t1⟩ rfl rfl,
          stepChannel_released_fixed t3 ⟨v1, v1, false, false, hd1, ld1⟩ rfl rfl,
          stepChannel_released_fixed t3 ⟨v2, v2, false, false, hd2, ld2⟩ rfl rfl]
    have A4 : postState t4 (false, false, false) ⟨⟨v0, v0, true, false, false, t3⟩, ⟨v1, v1, false, false, hd1, ld1⟩, ⟨v2, v2, false, false, hd2, ld2⟩⟩ = ⟨⟨tapUpdate v0, tapUpdate v0, false, false, false, t3⟩, ⟨v1, v1, false, false, hd1, ld1⟩, ⟨v2, v2, false, false, hd2, ld2⟩⟩ := by
      simp only [postState, postChannel]
      rw [stepChannel_release_commit t4 ⟨v0, v0, true, false, false, t3⟩ rfl rfl h43,
          stepChannel_released_fixed t4 ⟨v1, v1, false, false, hd1, ld1⟩ rfl rfl,
          stepChannel_released_fixed t4 ⟨v2, v2, false, false, hd2, ld2⟩ rfl rfl]
      rfl
    rw [runTicks_cons_nosave _ _ _ _ _ (by rw [A1]; exact saveCond_false_ch1 _ _ rfl), A1,
        runTicks_cons_nosave _ _ _ _ _ (by rw [A2]; exact saveCond_false_ch1 _ _ rfl), A2,
        runTicks_cons_nosave _ _ _ _ _ (by rw [A3]; exact saveCond_false_ch1 _ _ rfl), A3,
        runTicks_cons_nosave _ _ _ _ _ (by rw [A4]; exact saveCond_false_ch1 _ _ rfl), A4,
        runTicks_nil]
    refine ⟨rfl, ?_⟩
    intro j hj
    fin_cases j
    · exact absurd rfl hj
    · rfl
    · rfl
  · have e0 : cb0 = false := hcur 0
    have e1 : cb1 = false := hcur 1
    have e2 : cb2 = false := hcur 2
    have f0 : lb0 = false := hlast 0
    have f1 : lb1 = false := hlast 1
    have f2 : lb2 = false := hlast 2
    have g0 : hd1 = false := hheld
    subst e0 e1 e2 f0 f1 f2 g0
    simp only [soloInput]
    have A1 : postState t1 (false, true, false) ⟨⟨v0, lv0, false, false, hd0, ld0⟩, ⟨v1, lv1, false, false, false, ld1⟩, ⟨v2, lv2, false, false, hd2, ld2⟩⟩ = ⟨⟨v0, v0, false, false, hd0, ld0⟩, ⟨v1, v1, false, true, false, t1⟩, ⟨v2, v2, false, false, hd2, ld2⟩⟩ := by
      simp only [postState, postChannel]
      rw [stepChannel_press_start t1 ⟨v1, lv1, false, false, false, ld1⟩ rfl rfl,
          stepChannel_released_fixed t1 ⟨v0, lv0, false, false, hd0, ld0⟩ rfl rfl,
          stepChannel_released_fixed t1 ⟨v2, lv2, false, false, hd2, ld2⟩ rfl rfl]
    have A2 : postState t2 (false, true, false) ⟨⟨v0, v0, false, false, hd0, ld0⟩, ⟨v1, v1, false, true, false, t1⟩, ⟨v2, v2, false, false, hd2, ld2⟩⟩ = ⟨⟨v0, v0, false, false, hd0, ld0⟩, ⟨v1, v1, true, true, false, t1⟩, ⟨v2, v2, false, false, hd2, ld2⟩⟩ := by
      simp only [postState, postChannel]
      rw [stepChannel_press_commit t2 ⟨v1, v1, false, true, false, t1⟩ rfl rfl h21
            (by show ¬ t2 - t1 > HOLD_TIME_CLEAR; omega),
          stepChannel_released_fixed t2 ⟨v0, v0, false, false, hd0, ld0⟩ rfl rfl,
          stepChannel_released_fixed t2 ⟨v2, v2, false, false, hd2, ld2⟩ rfl rfl]
    have A3 : postState t3 (false, false, false) ⟨⟨v0, v0, false, false, hd0, ld0⟩, ⟨v1, v1, true, true, false, t1⟩, ⟨v2, v2, false, false, hd2, ld2⟩⟩ = ⟨⟨v0, v0, false, false, hd0, ld0⟩, ⟨v1, v1, true, false, false, t3⟩, ⟨v2, v2, false, false, hd2, ld2⟩⟩ := by
      simp only [postState, postChannel]
      rw [stepChannel_release_start t3 ⟨v1, v1, true, true, false, t1⟩ rfl rfl,
          stepChannel_released_fixed t3 ⟨v0, v0, false, false, hd0, ld0⟩ rfl rfl,
          stepChannel_released_fixed t3 ⟨v2, v2, false, false, hd2, ld2⟩ rfl rfl]
    have A4 : postState t4 (false, false, false) ⟨⟨v0, v0, false, false, hd0, ld0⟩, ⟨v1, v1, true, false, false, t3⟩, ⟨v2, v2, false, false, hd2, ld2⟩⟩ = ⟨⟨v0, v0, false, false, hd0, ld0⟩, ⟨tapUpdate v1, tapUpdate v1, false, false, false, t3⟩, ⟨v2, v2, false, false, hd2, ld2⟩⟩ := by
      simp only [postState, postChannel]
      rw [stepChannel_release_commit t4 ⟨v1, v1, true, false, false, t3⟩ rfl rfl h43,
          stepChannel_released_fixed t4 ⟨v0, v0, false, false, hd0, ld0⟩ rfl rfl,
          stepChannel_released_fixed t4 ⟨v2, v2, false, false, hd2, ld2⟩ rfl rfl]
      rfl
    rw [runTicks_cons_nosave _ _ _ _ _ (by rw [A1]; exact saveCond_false_ch0 _ _ rfl), A1,
        runTicks_cons_nosave _ _ _ _ _ (by rw [A2]; exact saveCond_false_ch0 _ _ rfl), A2,
        runTicks_cons_nosave _ _ _ _ _ (by rw [A3]; exact saveCond_false_ch0 _ _ rfl), A3,
        runTicks_cons_nosave _ _ _ _ _ (by rw [A4]; exact saveCond_false_ch0 _ _ rfl), A4,
        runTicks_nil]
    refine ⟨rfl, ?_⟩
    intro j hj
    fin_cases j
    · rfl
    · exact absurd rfl hj
    · rfl
  · have e0 : cb0 = false := hcur 0
    have e1 : cb1 = false := hcur 1
    have e2 : cb2 = false := hcur 2
    have f0 : lb0 = false := hlast 0
    have f1 : lb1 = false := hlast 1
    have f2 : lb2 = false := hlast 2
    have g0 : hd2 = false := hheld
    subst e0 e1 e2 f0 f1 f2 g0
    simp only [soloInput]
    have A1 : postState t1 (false, false, true) ⟨⟨v0, lv0, false, false, hd0, ld0⟩, ⟨v1, lv1, false, false, hd1, ld1⟩, ⟨v2, lv2, false, false, false, ld2⟩⟩ = ⟨⟨v0, v0, false, false, hd0, ld0⟩, ⟨v1, v1, false, false, hd1, ld1⟩, ⟨v2, v2, false, true, false, t1⟩⟩ := by
      simp only [postState, postChannel]
      rw [stepChannel_press_start t1 ⟨v2, lv2, false, false, false, ld2⟩ rfl rfl,
          stepChannel_released_fixed t1 ⟨v0, lv0, false, false, hd0, ld0⟩ rfl rfl,
          stepChannel_released_fixed t1 ⟨v1, lv1, false, false, hd1, ld1⟩ rfl rfl]
    have A2 : postState t2 (false, false, true) ⟨⟨v0, v0, false, false, hd0, ld0⟩, ⟨v1, v1, false, false, hd1, ld1⟩, ⟨v2, v2, false, true, false, t1⟩⟩ = ⟨⟨v0, v0, false, false, hd0, ld0⟩, ⟨v1, v1, false, false, hd1, ld1⟩, ⟨v2, v2, true, true, false, t1⟩⟩ := by
      simp only [postState, postChannel]
      rw [stepChannel_press_commit t2 ⟨v2, v2, false, true, false, t1⟩ rfl rfl h21
            (by show ¬ t2 - t1 > HOLD_TIME_CLEAR; omega),
          stepChannel_released_fixed t2 ⟨v0, v0, false, false, hd0, ld0⟩ rfl rfl,
          stepChannel_released_fixed t2 ⟨v1, v1, false, false, hd1, ld1⟩ rfl rfl]
    have A3 : postState t3 (false, false, false) ⟨⟨v0, v0, false, false, hd0, ld0⟩, ⟨v1, v1, false, false, hd1, ld1⟩, ⟨v2, v2, true, true, false, t1⟩⟩ = ⟨⟨v0, v0, false, false, hd0, ld0⟩, ⟨v1, v1, false, false, hd1, ld1⟩, ⟨v2, v2, true, false, false, t3⟩⟩ := by
      simp only [postState, postChannel]
      rw [stepChannel_release_start t3 ⟨v2, v2, true, true, false, t1⟩ rfl rfl,
          stepChannel_released_fixed t3 ⟨v0, v0, false, false, hd0, ld0⟩ rfl rfl,
          stepChannel_released_fixed t3 ⟨v1, v1, false, false, hd1, ld1⟩ rfl rfl]
    have A4 : postState t4 (false, false, false) ⟨⟨v0, v0, false, false, hd0, ld0⟩, ⟨v1, v1, false, false, hd1, ld1⟩, ⟨v2, v2, true, false, false, t3⟩⟩ = ⟨⟨v0, v0, false, false, hd0, ld0⟩, ⟨v1, v1, false, false, hd1, ld1⟩, ⟨tapUpdate v2, tapUpdate v2, false, false, false, t3⟩⟩ := by
      simp only [postState, postChannel]
      rw [stepChannel_release_commit t4 ⟨v2, v2, true, false, false, t3⟩ rfl rfl h43,
          stepChannel_released_fixed t4 ⟨v0, v0, false, false, hd0, ld0⟩ rfl rfl,
          stepChannel_released_fixed t4 ⟨v1, v1, false, false, hd1, ld1⟩ rfl rfl]
      rfl
    rw [runTicks_cons_nosave _ _ _ _ _ (by rw [A1]; exact saveCond_false_ch1 _ _ rfl), A1,
        runTicks_cons_nosave _ _ _ _ _ (by rw [A2]; exact saveCond_false_ch1 _ _ rfl), A2,
        runTicks_cons_nosave _ _ _ _ _ (by rw [A3]; exact saveCond_false_ch1 _ _ rfl), A3,
        runTicks_cons_nosave _ _ _ _ _ (by rw [A4]; exact saveCond_false_ch1 _ _ rfl), A4,
        runTicks_nil]
    refine ⟨rfl, ?_⟩
    intro j hj
    fin_cases j
    · rfl
    · rfl
    · exact absurd rfl hj

/-- C1 witness: a tap on channel 0 (press sampled at 100, committed at
140, release sampled at 200, committed at 240) from brightness 100 sets
channel 0 to `tapUpdate 100 = 116` and leaves channels 1 and 2 at 7
and 8. -/
theorem tap_updates_one_channel_witness :
    ((runTicks [(100, soloInput 0 true), (140, soloInput 0 true),
                (200, soloInput 0 false), (240, soloInput 0 false)]
        ⟨idleChannel 100, idleChannel 7, idleChannel 8⟩ blankEeprom).1.ch 0).value
      = tapUpdate (((⟨idleChannel 100, idleChannel 7, idleChannel 8⟩ : State).ch 0).value) ∧
    ∀ j : Fin 3, j ≠ 0 →
      ((runTicks [(100, soloInput 0 true), (140, soloInput 0 true),
                  (200, soloInput 0 false), (240, soloInput 0 false)]
          ⟨idleChannel 100, idleChannel 7, idleChannel 8⟩ blankEeprom).1.ch j).value
        = ((⟨idleChannel 100, idleChannel 7, idleChannel 8⟩ : State).ch j).value :=
  tap_updates_one_channel 0 ⟨idleChannel 100, idleChannel 7, idleChannel 8⟩
    blankEeprom 100 140 200 240 (by decide) (by decide) (by decide)
    (by decide) (by decide) (by decide) (by decide)

/-- C2: if a channel's stable button state is PRESSED and more than
HOLD_TIME_CLEAR (1500 ms) elapsed since its last raw transition, then on
that cycle its brightness is forced to 0 and its held flag is set, and
the tap increment that would otherwise fire on the eventual debounced
release does not fire: the brightness is still 0 after the release. -/
theorem hold_clear_forces_zero (c : Channel) (ts t3 t4 : Nat)
    (hc : c.curButton = true) (hl : c.lastButton = true)
    (hts : ts - c.lastDebounce > HOLD_TIME_CLEAR)
    (h43 : t4 - t3 > debounceDelay) :
    (stepChannel ts true c).value = 0 ∧ (stepChannel ts true c).held = true ∧
    (runChannel [(t3, false), (t4, false)] (stepChannel ts true c)).value = 0 := by
  obtain ⟨v, lv, cb, lb, h, ld⟩ := c
  simp only at hc hl hts
  subst hc hl
  rw [stepChannel_pressed_held ts _ rfl rfl, if_pos hts]
  refine ⟨rfl, rfl, ?_⟩
  simp only [runChannel, List.foldl]
  rw [stepChannel_release_start t3 _ rfl rfl]
  rw [stepChannel_release_commit t4 _ rfl rfl h43]
  simp

/-- C2 witness: a channel pressed since time 0 is cleared at time 1600 and
releasing at 1700/1740 leaves the brightness at 0. -/
theorem hold_clear_forces_zero_witness :
    (stepChannel 1600 true (pressedChannel 100)).value = 0 ∧
    (stepChannel 1600 true (pressedChannel 100)).held = true ∧
    (runChannel [(1700, false), (1740, false)]
        (stepChannel 1600 true (pressedChannel 100))).value = 0 :=
  hold_clear_forces_zero (pressedChannel 100) 1600 1700 1740 rfl rfl
    (by decide) (by decide)

/-- C6: persistence round trip: saving a state whose three channel values
are bytes and then loading into any state (a simulated restart) yields
exactly those three values. -/
theorem save_load_roundtrip (s t : State) (e : Eeprom)
    (h00 : 0 ≤ s.ch0.value) (h01 : s.ch0.value < 256)
    (h10 : 0 ≤ s.ch1.value) (h11 : s.ch1.value < 256)
    (h20 : 0 ≤ s.ch2.value) (h21 : s.ch2.value < 256) :
    (LoadState (SaveState s e) t).ch0.value = s.ch0.value ∧
    (LoadState (SaveState s e) t).ch1.value = s.ch1.value ∧
    (LoadState (SaveState s e) t).ch2.value = s.ch2.value := by
  simp only [LoadState, SaveState, loadChannel, eepromRead, eepromWrite,
    EEPROM_DATA_OFFSET]
  norm_num
  refine ⟨?_, ?_, ?_⟩ <;> omega

/-- C6 witness: saving (7, 40, 255) and reloading restores (7, 40, 255). -/
theorem save_load_roundtrip_witness :
    (LoadState (SaveState ⟨idleChannel 7, idleChannel 40, idleChannel 255⟩
        blankEeprom) ⟨idleChannel 0, idleChannel 0, idleChannel 0⟩).ch0.value = 7 ∧
    (LoadState (SaveState ⟨idleChannel 7, idleChannel 40, idleChannel 255⟩
        blankEeprom) ⟨idleChannel 0, idleChannel 0, idleChannel 0⟩).ch1.value = 40 ∧
    (LoadState (SaveState ⟨idleChannel 7, idleChannel 40, idleChannel 255⟩
        blankEeprom) ⟨idleChannel 0, idleChannel 0, idleChannel 0⟩).ch2.value = 255 :=
  save_load_roundtrip ⟨idleChannel 7, idleChannel 40, idleChannel 255⟩
    ⟨idleChannel 0, idleChannel 0, idleChannel 0⟩ blankEeprom
    (by decide) (by decide) (by decide) (by decide) (by decide) (by decide)

/-- C7 counterexample: a full tap on channel 0 starting from brightness 240
(press sampled at 100, committed at 140, release sampled at 200, committed
at 240) ends at brightness 255, not at the 0 the claim expects. -/
theorem tap_from_240_is_not_zero :
    ((runTicks [(100, (true, false, false)), (140, (true, false, false)),
                (200, (false, false, false)), (240, (false, false, false))]
        ⟨idleChannel 240, idleChannel 0, idleChannel 0⟩ blankEeprom).1.ch0).value
      = 255 ∧ (255 : Int) ≠ 0 := by
  constructor
  · rfl
  · decide

/-- C7 (amended): a tap on channel 0 from brightness 240 results in 255:
the increment is clamped by `min (240 + 16) 255`; the wrap to 0 happens
only from exactly 255, as `tapUpdate 255 = 0` shows. -/
theorem tap_from_240_clamps_to_255 :
    ((runTicks [(100, (true, false, false)), (140, (true, false, false)),
                (200, (false, false, false)), (240, (false, false, false))]
        ⟨idleChannel 240, idleChannel 0, idleChannel 0⟩ blankEeprom).1.ch0).value
      = min (240 + PWM_INCREMENT) 255 ∧ tapUpdate 255 = 0 := by
  constructor
  · rfl
  · decide

/-- C9: once the stable state matches the raw reading (and the raw level is
recorded), further cycles with an unchanged LOW reading leave the whole
channel state untouched, no matter how many cycles run; hence a single
debounced release increments the brightness at most once. Moreover, for
any level, a reading equal to the stable state never commits. -/
theorem no_recommit_while_raw_unchanged :
    (∀ (ts : Nat) (r : Bool) (c : Channel), c.curButton = r →
       (stepChannel ts r c).curButton = r) ∧
    (∀ (c : Channel), c.curButton = false → c.lastButton = false →
       ∀ tss : List Nat, runChannel (tss.map fun t => (t, false)) c = c) := by
  refine ⟨fun ts r c h => stepChannel_curButton_of_eq ts r c h, fun c hc hl tss => ?_⟩
  induction tss with
  | nil => rfl
  | cons t ts ih =>
      simp only [List.map_cons, runChannel, List.foldl] at ih ⊢
      rw [stepChannel_released_fixed t c hc hl]
      exact ih

/-- C9 witness: a released channel at brightness 48 is untouched by two
further released cycles. -/
theorem no_recommit_while_raw_unchanged_witness :
    runChannel ((([100, 200] : List Nat)).map fun t => (t, false))
      (idleChannel 48) = idleChannel 48 :=
  no_recommit_while_raw_unchanged.2 (idleChannel 48) rfl rfl [100, 200]

/-- The apply-step events for one channel: an output write exactly when
the brightness differs from the last applied value. -/
theorem applyOne_snd (i : Nat) (c : Channel) :
    (applyOne i c).2 = if c.value ≠ c.lastValue then [Ev.write i c.value] else [] := by
  unfold applyOne
  split_ifs <;> rfl

/-- C3: on any cycle where all three stable button states are PRESSED and
each channel's time since its last raw transition exceeds HOLD_TIME_SAVE
(1000 ms), the iteration emits the apply-step writes followed by the
acknowledgment flash (all outputs to 0, a 100 ms delay, back to the
current brightness values, 100 ms, to 0, 100 ms, back to the brightness
values), sets the held flag on all three channels, and stores the three
channels' current brightness values durably at offsets 0, 1, 2 in that
order (`SaveState`). -/
theorem save_gesture_fires (ts : Nat) (s : State) (e : Eeprom)
    (hc : ∀ j : Fin 3, (s.ch j).curButton = true)
    (hl : ∀ j : Fin 3, (s.ch j).lastButton = true)
    (ht : ∀ j : Fin 3, ts - (s.ch j).lastDebounce > HOLD_TIME_SAVE) :
    (tick ts (true, true, true) s e).2.2 =
      applyEvs ⟨stepChannel ts true s.ch0, stepChannel ts true s.ch1,
                stepChannel ts true s.ch2⟩
        ++ blinkEvents (postState ts (true, true, true) s) ∧
    (∀ j : Fin 3, ((tick ts (true, true, true) s e).1.ch j).held = true) ∧
    (tick ts (true, true, true) s e).2.1
      = SaveState (postState ts (true, true, true) s) e := by
  have hsc : saveCond ts (postState ts (true, true, true) s) = true := by
    have c0 := stepChannel_curButton_of_eq ts true s.ch0 (hc 0)
    have c1 := stepChannel_curButton_of_eq ts true s.ch1 (hc 1)
    have c2 := stepChannel_curButton_of_eq ts true s.ch2 (hc 2)
    have d0 := stepChannel_lastDebounce_of_eq ts true s.ch0 (hl 0)
    have d1 := stepChannel_lastDebounce_of_eq ts true s.ch1 (hl 1)
    have d2 := stepChannel_lastDebounce_of_eq ts true s.ch2 (hl 2)
    have u0 : ts - s.ch0.lastDebounce > HOLD_TIME_SAVE := ht 0
    have u1 : ts - s.ch1.lastDebounce > HOLD_TIME_SAVE := ht 1
    have u2 : ts - s.ch2.lastDebounce > HOLD_TIME_SAVE := ht 2
    simp only [saveCond, postState, postChannel]
    simp [c0, c1, c2, d0, d1, d2, u0, u1, u2]
  rw [tick_eq]
  rw [if_pos hsc]
  refine ⟨rfl, ?_, rfl⟩
  intro j
  fin_cases j <;> rfl

/-- C3 witness: at time 1100 with all three channels pressed since time 0
at brightness 5, 0 and 255, the iteration emits the flash, sets all held
flags, and saves (5, 0, 255). -/
theorem save_gesture_fires_witness :
    (tick 1100 (true, true, true)
        ⟨pressedChannel 5, pressedChannel 0, pressedChannel 255⟩ blankEeprom).2.2 =
      applyEvs ⟨stepChannel 1100 true (pressedChannel 5),
                stepChannel 1100 true (pressedChannel 0),
                stepChannel 1100 true (pressedChannel 255)⟩
        ++ blinkEvents (postState 1100 (true, true, true)
              ⟨pressedChannel 5, pressedChannel 0, pressedChannel 255⟩) ∧
    (∀ j : Fin 3, ((tick 1100 (true, true, true)
        ⟨pressedChannel 5, pressedChannel 0, pressedChannel 255⟩
        blankEeprom).1.ch j).held = true) ∧
    (tick 1100 (true, true, true)
        ⟨pressedChannel 5, pressedChannel 0, pressedChannel 255⟩ blankEeprom).2.1
      = SaveState (postState 1100 (true, true, true)
          ⟨pressedChannel 5, pressedChannel 0, pressedChannel 255⟩) blankEeprom :=
  save_gesture_fires 1100 ⟨pressedChannel 5, pressedChannel 0, pressedChannel 255⟩
    blankEeprom (by decide) (by decide) (by decide)

/-- C8 (amended): outside save-gesture iterations, a write event for
channel j occurs in an iteration exactly when the brightness the channel
body computed that iteration differs from the previously applied value,
and the written value is that brightness. (On save-gesture iterations the
acknowledgment flash additionally writes every output unconditionally.) -/
theorem write_only_on_change (ts : Nat) (r : Bool × Bool × Bool) (s : State)
    (e : Eeprom) (j : Fin 3) (v : Int)
    (hns : saveCond ts (postState ts r s) = false) :
    Ev.write j.val v ∈ (tick ts r s e).2.2 ↔
      (v = (stepChannel ts (rsel r j) (s.ch j)).value ∧
       (stepChannel ts (rsel r j) (s.ch j)).value ≠ (s.ch j).lastValue) := by
  rw [tick_eq]
  rw [if_neg (by simp [hns])]
  fin_cases j <;>
    (simp only [applyEvs, applyOne_snd, stepChannel_lastValue, List.mem_append,
       rsel, State.ch]
     split_ifs with h1 h2 h3 <;> simp_all [State.ch])

/-- C8 witness: at a quiet iteration (all buttons LOW) with channel 0 at
brightness 10 and last applied value 3, a write of 10 on output 0 occurs,
and indeed 10 is the brightness computed that iteration and differs
from 3. -/
theorem write_only_on_change_witness :
    Ev.write (0 : Fin 3).val 10 ∈ (tick 50 (false, false, false)
        ⟨{ value := 10, lastValue := 3, curButton := false, lastButton := false,
           held := false, lastDebounce := 0 }, idleChannel 0, idleChannel 0⟩
        blankEeprom).2.2 ↔
      ((10 : Int) = (stepChannel 50 (rsel (false, false, false) 0)
          ((⟨{ value := 10, lastValue := 3, curButton := false, lastButton := false,
               held := false, lastDebounce := 0 }, idleChannel 0, idleChannel 0⟩
             : State).ch 0)).value ∧
       (stepChannel 50 (rsel (false, false, false) 0)
          ((⟨{ value := 10, lastValue := 3, curButton := false, lastButton := false,
               held := false, lastDebounce := 0 }, idleChannel 0, idleChannel 0⟩
             : State).ch 0)).value
         ≠ ((⟨{ value := 10, lastValue := 3, curButton := false, lastButton := false,
                held := false, lastDebounce := 0 }, idleChannel 0, idleChannel 0⟩
              : State).ch 0).lastValue) :=
  write_only_on_change 50 (false, false, false)
    ⟨{ value := 10, lastValue := 3, curButton := false, lastButton := false,
       held := false, lastDebounce := 0 }, idleChannel 0, idleChannel 0⟩
    blankEeprom 0 10 (by decide)

/-- C10: `LoadState` sets each channel's last applied value equal to its
loaded brightness, and the write-on-change apply step emits no output
write for a channel whose brightness equals its last applied value; so
after startup no apply-step write happens until a brightness changes. -/
theorem load_sets_lastApplied (e : Eeprom) (s : State) :
    (∀ j : Fin 3, ((LoadState e s).ch j).value = ((LoadState e s).ch j).lastValue) ∧
    (∀ (i : Nat) (c : Channel), c.value = c.lastValue → (applyOne i c).2 = []) := by
  constructor
  · intro j
    fin_cases j <;> rfl
  · intro i c h
    simp [applyOne, h]

/-- C5: a raw flicker confined to a window shorter than the debounce delay
(every sample deviating from the settled level b lies in [t0, t0 + 30))
never changes the stable button state, whatever the samples outside the
window read (they read the settled level b). -/
theorem flicker_never_changes_stable (b : Bool) (t0 : Nat)
    (samples : List (Nat × Bool)) (c : Channel)
    (hc : c.curButton = b) (hl : c.lastButton = b)
    (hwin : ∀ p ∈ samples, p.2 ≠ b → t0 ≤ p.1 ∧ p.1 < t0 + debounceDelay) :
    (runChannel samples c).curButton = b := by
  have main : ∀ (l : List (Nat × Bool)) (d : Channel), d.curButton = b →
      (d.lastButton ≠ b → t0 ≤ d.lastDebounce) →
      (∀ p ∈ l, p.2 ≠ b → t0 ≤ p.1 ∧ p.1 < t0 + debounceDelay) →
      (runChannel l d).curButton = b := by
    intro l
    induction l with
    | nil => intro d hd _ _; exact hd
    | cons p rest ih =>
        intro d hd hinv hw
        rw [runChannel_cons]
        by_cases hr : p.2 = b
        · apply ih (stepChannel p.1 p.2 d)
          · rw [hr]
            exact stepChannel_curButton_of_eq p.1 b d hd
          · intro hlb
            rw [stepChannel_lastButton] at hlb
            exact absurd hr hlb
          · exact fun q hq => hw q (List.mem_cons_of_mem p hq)
        · obtain ⟨ht, ht'⟩ := hw p (List.mem_cons_self p rest) hr
          obtain ⟨h1, h2⟩ := stepChannel_flicker_step p.1 p.2 d b t0 hd hinv hr ht ht'
          apply ih (stepChannel p.1 p.2 d) h1 (fun _ => h2)
          exact fun q hq => hw q (List.mem_cons_of_mem p hq)
  apply main samples c hc (fun hlb => absurd hl hlb) hwin

/-- C5 witness: a released channel sees a HIGH flicker spanning samples at
1000, 1010 and 1025 (window start 1000, shorter than 30 ms) and stays
stable LOW through a later sample at 2000. -/
theorem flicker_never_changes_stable_witness :
    (runChannel [(500, false), (1000, true), (1010, true), (1025, true),
                 (1029, false), (2000, false)] (idleChannel 32)).curButton = false :=
  flicker_never_changes_stable false 1000
    [(500, false), (1000, true), (1010, true), (1025, true), (1029, false),
     (2000, false)]
    (idleChannel 32) rfl rfl (by decide)

/-- C4 counterexample: a reachable debounced release from brightness 240
changes the brightness to 255, which is neither an exact +16 step, nor a
wrap of 255 to 0, nor a reset to 0. -/
theorem brightness_change_not_claimed_shape :
    (stepChannel 40 false
        { value := 240, lastValue := 240, curButton := true, lastButton := false,
          held := false, lastDebounce := 0 }).value = 255 ∧
    ¬((255 : Int) = 240 + 16 ∨ ((240 : Int) = 255 ∧ (255 : Int) = 0) ∨
      (255 : Int) = 0) := by
  decide

/-- C4 (amended): for every channel, a brightness within [0,255] stays
within [0,255] across a full `loop` iteration, and any change is either
the tap update (0 from exactly 255, otherwise min (v+16) 255) or a reset
to 0; moreover every brightness produced by `LoadState` lies in [0,255],
so every reachable brightness does. -/
theorem brightness_invariant (ts : Nat) (r : Bool × Bool × Bool) (s : State)
    (e : Eeprom) (j : Fin 3)
    (h0 : 0 ≤ (s.ch j).value) (h255 : (s.ch j).value ≤ 255) :
    (0 ≤ ((tick ts r s e).1.ch j).value ∧ ((tick ts r s e).1.ch j).value ≤ 255) ∧
    (((tick ts r s e).1.ch j).value = (s.ch j).value ∨
     ((tick ts r s e).1.ch j).value = tapUpdate ((s.ch j).value) ∨
     ((tick ts r s e).1.ch j).value = 0) ∧
    (∀ (f : Eeprom) (t : State) (k : Fin 3),
       0 ≤ ((LoadState f t).ch k).value ∧ ((LoadState f t).ch k).value ≤ 255) := by
  have hv := tick_value ts r s e j
  have hcases := stepChannel_value_cases ts (rsel r j) (s.ch j)
  have hb := tapUpdate_bounds ((s.ch j).value) h0
  refine ⟨?_, ?_, ?_⟩
  · rw [hv]
    rcases hcases with h | h | h <;> rw [h] <;> constructor <;> omega
  · rw [hv]
    exact hcases
  · intro f t k
    fin_cases k <;> simp [LoadState, loadChannel, eepromRead, State.ch] <;> omega

/-- A state whose channel 0 is mid-release (commit pending) at
brightness 32, with the other channels idle. -/
def midRelease32 : State :=
  ⟨{ value := 32, lastValue := 32, curButton := true, lastButton := false,
     held := false, lastDebounce := 0 }, idleChannel 0, idleChannel 0⟩

/-- C4 witness: at a concrete iteration (release commit of channel 0 at
time 40 from brightness 32) the bounds hold and the change is the tap
update. -/
theorem brightness_invariant_witness :
    (0 ≤ ((tick 40 (false, false, false) midRelease32 blankEeprom).1.ch 0).value ∧
       ((tick 40 (false, false, false) midRelease32 blankEeprom).1.ch 0).value ≤ 255) ∧
    (((tick 40 (false, false, false) midRelease32 blankEeprom).1.ch 0).value
        = (midRelease32.ch 0).value ∨
     ((tick 40 (false, false, false) midRelease32 blankEeprom).1.ch 0).value
        = tapUpdate ((midRelease32.ch 0).value) ∨
     ((tick 40 (false, false, false) midRelease32 blankEeprom).1.ch 0).value = 0) ∧
    (∀ (f : Eeprom) (t : State) (k : Fin 3),
       0 ≤ ((LoadState f t).ch k).value ∧ ((LoadState f t).ch k).value ≤ 255) :=
  brightness_invariant 40 (false, false, false) midRelease32 blankEeprom 0
    (by decide) (by decide)

/-- C8 counterexample: on an iteration where the save gesture fires with
all three brightness values already applied (all 0), the acknowledgment
flash writes output 0 with value 0 even though channel 0's brightness
that tick (0) equals the previously applied value (0): a write occurs on
a tick with no brightness difference. -/
theorem write_without_change_on_save :
    Ev.write 0 0 ∈ (tick 1200 (true, true, true)
        ⟨pressedChannel 0, pressedChannel 0, pressedChannel 0⟩ blankEeprom).2.2 ∧
    (stepChannel 1200 true (pressedChannel 0)).value = 0 ∧
    (pressedChannel 0).lastValue = 0 := by
  decide

/-- C10 witness: after loading a blank EEPROM into an arbitrary state,
channel 0's brightness equals its last applied value, and the apply step
emits nothing for a channel at brightness 5 already applied. -/
theorem load_sets_lastApplied_witness :
    ((LoadState blankEeprom ⟨idleChannel 1, idleChannel 2, idleChannel 3⟩).ch 0).value
      = ((LoadState blankEeprom ⟨idleChannel 1, idleChannel 2, idleChannel 3⟩).ch 0).lastValue ∧
    (applyOne 0 (idleChannel 5)).2 = [] :=
  ⟨(load_sets_lastApplied blankEeprom ⟨idleChannel 1, idleChannel 2, idleChannel 3⟩).1 0,
   (load_sets_lastApplied blankEeprom ⟨idleChannel 1, idleChannel 2, idleChannel 3⟩).2 0
     (idleChannel 5) rfl⟩

end RgbPro
